import Mathlib

/-!
Verification of the acquisition-mode control core of `src/camera_service.py`
(an ASI-camera HTTP service).  The Python source is shallowly embedded:

* the global dictionaries `camera_state` / `sequence_state` become the
  structures `CamState` / `SeqSt`; the `ASICamera` object becomes `Cam`
  (its `camera_id >= 0` test is folded into `is_open`, which `connect`
  sets together with the id);
* every vendor-SDK call site is recorded in a trace of `DCall` values, and
  the values the SDK returns are supplied by a `Driver` environment whose
  fields give, per call site, the result of the n-th such call;
* Python exceptions become the `SnapRet.exc` constructor
  (`capture_snapshot` can raise `UnboundLocalError` for `status_names`,
  which is assigned only at line 572 but read at lines 523/530);
* the float arithmetic of the pull timeout (line 428) is embedded over `ℚ`
  with `Nat.floor` standing for Python's `int` truncation of the
  non-negative result;
* unbounded `while` loops driven by a deadline counter are embedded by
  structural recursion on the (exact) number of remaining iterations.

The `current_frame` image payload is abstracted to a `Frame` record of
pixel format and geometry; pixel contents play no role in the claims.
-/

/-! ### SDK constants (camera_service.py lines 102-128) -/

def ASI_SUCCESS : Int := 0

def ASI_IMG_RAW8 : Nat := 0

def ASI_IMG_RGB24 : Nat := 1

def ASI_IMG_RAW16 : Nat := 2

def ASI_IMG_Y8 : Nat := 3

def ASI_GAIN : Nat := 0

def ASI_EXPOSURE : Nat := 1

def ASI_AUTO_MAX_EXP : Nat := 11

/-- One recorded vendor-SDK call. -/
inductive DCall
  | setControl (ctrl : Nat) (value : Nat)
  | getControl (ctrl : Nat)
  | setROIFormat (fmt : Nat)
  | startVideoCapture
  | stopVideoCapture
  | getVideoData
  | startExposure
  | stopExposure
  | getExpStatus
  | getDataAfterExp
  deriving DecidableEq, Repr

/-- Decoded image abstraction: pixel format plus geometry. -/
structure Frame where
  fmt : Nat
  width : Nat
  height : Nat
  deriving DecidableEq, Repr

/-- Python exceptions that the embedded code can raise.
`unboundLocalStatusNames` is the `UnboundLocalError` for the local
`status_names`, assigned only at line 572 of `capture_snapshot` but read
at lines 523 and 530. -/
inductive PyErr
  | unboundLocalStatusNames
  deriving DecidableEq, Repr

/-- Result of `capture_snapshot`: a normal return (the image or `None`)
or a raised exception. -/
inductive SnapRet
  | ok (img : Option Frame)
  | exc (e : PyErr)
  deriving DecidableEq, Repr

/-- Values stored in `camera_state['error']`. -/
inductive CamErr
  | startVideoFailed (code : Int)
  deriving DecidableEq, Repr

/-- The `ASICamera` object state (fields of the Python class). -/
structure Cam where
  is_open : Bool
  streaming : Bool
  hasThread : Bool
  deriving DecidableEq, Repr

/-- The `camera_state` dictionary (lines 131-143); `current_frame` is
abstracted away (not needed by any claim). -/
structure CamState where
  connected : Bool
  streaming : Bool
  width : Nat
  height : Nat
  exposure : Nat
  video_exposure : Nat
  gain : Nat
  image_format : Nat
  error : Option CamErr
  deriving DecidableEq, Repr

/-- Environment supplying the SDK's responses.  Each call site reads from
its own response stream, indexed by how many calls that site has made. -/
structure Driver where
  snapStartExposure : Nat → Int
  snapExpStatus : Nat → Nat
  snapGetData : Int
  startVideo : Int
  routeSetROI : Int
  routeExpStatus : Nat → Nat

/-! ### `ASICamera.stop_stream` (lines 400-414) -/

/-- `stop_stream`: clears both streaming flags, joins the capture thread,
then (when the device is open) always issues `ASIStopVideoCapture`; its
result is only logged. -/
def stop_stream (cam : Cam) (st : CamState) : Cam × CamState × List DCall :=
  ({ cam with streaming := false },
   { st with streaming := false },
   if cam.is_open then [DCall.stopVideoCapture] else [])

/-! ### `ASICamera.start_stream` (lines 345-398) -/

/-- `start_stream`: applies gain / manual video exposure / auto-max
exposure, reads back gain and exposure, then `ASIStartVideoCapture`.  On
failure it records the error in `camera_state['error']` and returns
`False` without touching the streaming flags; on success it sets both
streaming flags and launches the capture thread. -/
def start_stream (dev : Driver) (cam : Cam) (st : CamState) :
    Bool × Cam × CamState × List DCall :=
  if cam.is_open = false then (false, cam, st, [])
  else
    let tr := [DCall.setControl ASI_GAIN st.gain,
               DCall.setControl ASI_EXPOSURE st.video_exposure,
               DCall.setControl ASI_AUTO_MAX_EXP st.video_exposure,
               DCall.getControl ASI_GAIN, DCall.getControl ASI_EXPOSURE,
               DCall.startVideoCapture]
    if dev.startVideo ≠ ASI_SUCCESS then
      (false, cam, { st with error := some (CamErr.startVideoFailed dev.startVideo) }, tr)
    else
      (true, { cam with streaming := true, hasThread := true },
       { st with streaming := true }, tr)

/-! ### `_capture_loop` (lines 416-458) -/

/-- Pull timeout of one streaming iteration (lines 427-429):
`timeout_ms = int(video_exposure / 1000.0 * 2 + 500)` clamped to
`[100, 5000]`.  The float expression is non-negative and exactly the
rational `ve / 1000 * 2 + 500`, so `int` truncation is `Nat.floor`. -/
def stream_timeout_ms (video_exposure : Nat) : Nat :=
  max 100 (min (Nat.floor ((video_exposure : ℚ) / 1000 * 2 + 500)) 5000)

/-- Observable outcome of one iteration of the streaming loop's
pull-result handling (lines 440-454). -/
structure PullStep where
  consecutive_errors : Nat
  reported : Bool
  published : Bool
  deriving DecidableEq, Repr

/-- One iteration of the pull-result handling: success (result 0) resets
the consecutive-error counter and publishes a frame; a timeout (result 2)
is ignored; any other result increments the counter and reports exactly
when the counter is 1 or a multiple of 10. -/
def capture_loop_step (consecutive_errors : Nat) (result : Int) : PullStep :=
  if result = ASI_SUCCESS then
    { consecutive_errors := 0, reported := false, published := true }
  else if result ≠ 2 then
    let c := consecutive_errors + 1
    { consecutive_errors := c,
      reported := decide (c = 1 ∨ c % 10 = 0), published := false }
  else
    { consecutive_errors := consecutive_errors, reported := false, published := false }

/-- Runs the pull-result handling over a list of pull results, starting
at iteration number `i` with counter `c`; returns the final counter and
the iteration numbers at which an error report was emitted.  Pull results
never terminate the loop (only the stop flag does), so all results are
consumed. -/
def capture_loop_run : Nat → Nat → List Int → Nat × List Nat
  | _, c, [] => (c, [])
  | i, c, r :: rs =>
      let s := capture_loop_step c r
      let rest := capture_loop_run (i + 1) s.consecutive_errors rs
      (rest.1, if s.reported then i :: rest.2 else rest.2)

/-! ### `capture_snapshot` (lines 460-608) -/

/-- Start-exposure logic of `capture_snapshot` (lines 491-511): on error
14 (`ASI_ERROR_VIDEO_MODE_ACTIVE`) issue one `ASIStopVideoCapture` and
retry `ASIStartExposure` exactly once; on any other error give up. -/
def snap_start_exposure (dev : Driver) : Bool × List DCall :=
  let r1 := dev.snapStartExposure 0
  if r1 = ASI_SUCCESS then (true, [DCall.startExposure])
  else if r1 = 14 then
    let r2 := dev.snapStartExposure 1
    (r2 = ASI_SUCCESS,
     [DCall.startExposure, DCall.stopVideoCapture, DCall.startExposure])
  else (false, [DCall.startExposure])

/-- How the exposure-wait loop of `capture_snapshot` ends. -/
inductive PollExit
  | success
  | failedRaise
  | timeoutRaise (lastStatus : Nat)
  deriving DecidableEq, Repr

/-- The exposure-wait loop (lines 513-532): polls `ASIGetExpStatus` every
100 ms while `timeout < max_timeout`; breaks on status 2; on status 3 it
executes `status_names.get(...)` which raises `UnboundLocalError`
(`failedRaise`); exhausting the deadline likewise reaches the
`status_names` read at line 530 (`timeoutRaise`).  `i` indexes the status
stream, `fuel` is the number of remaining iterations, the last argument
is the current value of the `status` variable. -/
def pollExposure (statusAt : Nat → Nat) : Nat → Nat → Nat → PollExit × List DCall
  | _, 0, last =>
      (if last = 2 then PollExit.success else PollExit.timeoutRaise last, [])
  | i, fuel + 1, _ =>
      let s := statusAt i
      if s = 2 then (PollExit.success, [DCall.getExpStatus])
      else if s = 3 then (PollExit.failedRaise, [DCall.getExpStatus])
      else
        let r := pollExposure statusAt (i + 1) fuel s
        (r.1, DCall.getExpStatus :: r.2)

/-- Everything after a successful exposure start (lines 513-608): the
wait loop, then buffer sizing by pixel format (unsupported formats return
`None` before fetching), `ASIGetDataAfterExp` (whose failure path reads
the status once more for the log and returns `None`), and the decode into
the in-memory image. -/
def snap_after_start (dev : Driver) (st : CamState) : SnapRet × List DCall :=
  let maxT := st.exposure / 1000 + 5000
  let fuel := (maxT + 99) / 100
  let p := pollExposure dev.snapExpStatus 0 fuel 0
  match p.1 with
  | PollExit.success =>
      if st.image_format = ASI_IMG_RGB24 ∨ st.image_format = ASI_IMG_RAW8 ∨
         st.image_format = ASI_IMG_Y8 ∨ st.image_format = ASI_IMG_RAW16 then
        if dev.snapGetData = ASI_SUCCESS then
          (SnapRet.ok (some { fmt := st.image_format, width := st.width, height := st.height }),
           p.2 ++ [DCall.getDataAfterExp])
        else
          (SnapRet.ok none, p.2 ++ [DCall.getDataAfterExp, DCall.getExpStatus])
      else (SnapRet.ok none, p.2)
  | _ => (SnapRet.exc PyErr.unboundLocalStatusNames, p.2)

/-- `capture_snapshot` (lines 460-608).  Note that it performs no idle
precondition poll: after optionally stopping the stream it applies
exposure and gain and immediately starts the exposure ("Don't wait for
IDLE state - let SDK handle it", line 473). -/
def capture_snapshot (dev : Driver) (cam : Cam) (st : CamState) :
    SnapRet × Cam × CamState × List DCall :=
  if cam.is_open = false then (SnapRet.ok none, cam, st, [])
  else
    let s1 := if cam.streaming then stop_stream cam st else (cam, st, [])
    let cam1 := s1.1
    let st1 := s1.2.1
    -- second `if self.streaming` (line 476); always false after the stop above
    let s2 := if cam1.streaming then stop_stream cam1 st1 else (cam1, st1, [])
    let cam2 := s2.1
    let st2 := s2.2.1
    let trCtl := [DCall.setControl ASI_EXPOSURE st2.exposure,
                  DCall.setControl ASI_GAIN st2.gain]
    let se := snap_start_exposure dev
    if se.1 = false then
      (SnapRet.ok none, cam2, st2, s1.2.2 ++ s2.2.2 ++ trCtl ++ se.2)
    else
      let rest := snap_after_start dev st2
      (rest.1, cam2, st2, s1.2.2 ++ s2.2.2 ++ trCtl ++ se.2 ++ rest.2)

/-! ### The `/camera/snapshot` route (lines 761-870) -/

/-- Error classes of the snapshot route's JSON error responses. -/
inductive RouteErr
  | notConnected
  | setROIFailed
  | captureNone
  | exception
  deriving DecidableEq, Repr

/-- HTTP response of the snapshot route: the JPEG image (`send_file`,
status 200) or a JSON error with its status code. -/
inductive Resp
  | imageOk (f : Frame)
  | errJson (code : Nat) (e : RouteErr)
  deriving DecidableEq, Repr

/-- The idle-wait loop of the route's format-change block (lines 825-828):
while the status is non-idle and under the 3000 ms deadline, sleep and
poll again.  Arguments: current status, status-stream index, remaining
iterations. -/
def idle_poll (statusAt : Nat → Nat) : Nat → Nat → Nat → Nat × List DCall
  | s, _, 0 => (s, [])
  | s, i, fuel + 1 =>
      if s = 0 then (s, [])
      else
        let r := idle_poll statusAt (statusAt i) (i + 1) fuel
        (r.1, DCall.getExpStatus :: r.2)

/-- The "ensure camera is idle after format change" block of the snapshot
route (lines 819-832): one status read; if non-idle, poll for idle up to
3000 ms (30 iterations); if still non-idle, force `ASIStopExposure` and
settle.  Returns the recorded calls. -/
def route_format_block (dev : Driver) : List DCall :=
  let s0 := dev.routeExpStatus 0
  if s0 = 0 then [DCall.getExpStatus]
  else
    let r := idle_poll (fun k => dev.routeExpStatus (k + 1)) s0 0 30
    if r.1 ≠ 0 then DCall.getExpStatus :: r.2 ++ [DCall.stopExposure]
    else DCall.getExpStatus :: r.2

/-- Outcome of the route's preamble (stream suspension and format
application), before `capture_snapshot` is invoked. -/
inductive PreRes
  | fail (r : Resp) (c : Cam) (s : CamState) (t : List DCall)
  | go (c : Cam) (s : CamState) (t : List DCall) (format_applied : Bool)
  deriving Repr

/-- Route preamble (lines 772-832): remember `was_streaming`, stop the
stream if it was running, and if the photo format is not RGB24 apply it
with `ASISetROIFormat` (on failure: best-effort stream restore, error
response) followed by the idle-recovery block. -/
def route_pre (dev : Driver) (cam : Cam) (st : CamState) : PreRes :=
  let s1 := if cam.streaming then stop_stream cam st else (cam, st, [])
  let cam1 := s1.1
  let st1 := s1.2.1
  let tr1 := s1.2.2
  if st1.image_format ≠ ASI_IMG_RGB24 then
    let trR := tr1 ++ [DCall.setROIFormat st1.image_format]
    if dev.routeSetROI ≠ ASI_SUCCESS then
      if cam.streaming then
        let q := start_stream dev cam1 st1
        PreRes.fail (Resp.errJson 500 RouteErr.setROIFailed) q.2.1 q.2.2.1 (trR ++ q.2.2.2)
      else PreRes.fail (Resp.errJson 500 RouteErr.setROIFailed) cam1 st1 trR
    else PreRes.go cam1 st1 (trR ++ route_format_block dev) true
  else PreRes.go cam1 st1 tr1 false

/-- The `/camera/snapshot` route (lines 761-870).  After the preamble it
runs `capture_snapshot`; if streaming had been active it restores RGB24
(when a format was applied) and calls `start_stream`, whose result is
discarded (line 847); it then returns the image, or a 500 error when the
capture returned `None`.  An exception from the capture is caught by the
handler (lines 860-870), which best-effort restarts the stream and
returns a 500 error. -/
def snapshot_route (dev : Driver) (cam : Cam) (st : CamState) :
    Resp × Cam × CamState × List DCall :=
  if (st.connected && cam.is_open) = false then
    (Resp.errJson 500 RouteErr.notConnected, cam, st, [])
  else
    match route_pre dev cam st with
    | PreRes.fail r c s t => (r, c, s, t)
    | PreRes.go cam1 st1 trP fa =>
        let p := capture_snapshot dev cam1 st1
        match p.1 with
        | SnapRet.exc _ =>
            if cam.streaming && !p.2.1.streaming then
              let q := start_stream dev p.2.1 p.2.2.1
              (Resp.errJson 500 RouteErr.exception, q.2.1, q.2.2.1,
               trP ++ p.2.2.2 ++ q.2.2.2)
            else (Resp.errJson 500 RouteErr.exception, p.2.1, p.2.2.1, trP ++ p.2.2.2)
        | SnapRet.ok img =>
            let rr :=
              if cam.streaming then
                let trF : List DCall :=
                  if fa then [DCall.setROIFormat ASI_IMG_RGB24] else []
                let q := start_stream dev p.2.1 p.2.2.1
                (q.2.1, q.2.2.1, trF ++ q.2.2.2)
              else (p.2.1, p.2.2.1, ([] : List DCall))
            match img with
            | some f => (Resp.imageOk f, rr.1, rr.2.1, trP ++ p.2.2.2 ++ rr.2.2)
            | none =>
                (Resp.errJson 500 RouteErr.captureNone, rr.1, rr.2.1,
                 trP ++ p.2.2.2 ++ rr.2.2)

/-- The `/camera/stream/stop` route (lines 755-759): calls `stop_stream`
and unconditionally reports success. -/
def stop_stream_route (cam : Cam) (st : CamState) :
    Bool × Cam × CamState × List DCall :=
  let r := stop_stream cam st
  (true, r.1, r.2.1, r.2.2)

/-! ### `sequence_capture_loop` (lines 610-704) and sequence state -/

/-- The `sequence_state` dictionary (lines 146-154); the worker thread
handle is abstracted to the flag `hasThread`. -/
structure SeqSt where
  active : Bool
  save_path : String
  total_count : Nat
  current_count : Nat
  file_format : String
  interval : ℚ
  hasThread : Bool
  deriving DecidableEq, Repr

/-- `sequence_capture_loop` (lines 610-704) over a schedule of iteration
events.  Each event is a pair `(cancel, ok)`: `cancel` is whether an
external `stop_sequence` cleared `active` before the loop re-read it, and
`ok` is whether this iteration's `capture_snapshot` produced an image
(an in-body exception is absorbed by the handler at lines 697-701 and
behaves like `ok = false`).  The loop breaks when `current_count`
reaches `total_count` (clearing `active`) or when `active` was cleared;
a successful capture increments `current_count`.  An exhausted event
list means the loop is still running. -/
def sequence_capture_loop : List (Bool × Bool) → SeqSt → SeqSt
  | [], s => s
  | (cancel, ok) :: rest, s =>
      if cancel then { s with active := false }
      else if s.active = false then s
      else if s.total_count ≤ s.current_count then { s with active := false }
      else if ok then
        sequence_capture_loop rest { s with current_count := s.current_count + 1 }
      else sequence_capture_loop rest s

/-! ### The `/camera/sequence/start` route (lines 1021-1113) -/

/-- The parsed `count` field of a sequence-start request: absent,
unparseable by `int()`, or an integer value. -/
inductive CountField
  | missing
  | invalid
  | valid (n : Int)
  deriving DecidableEq, Repr

/-- A sequence-start request body.  `hasJson` is whether `get_json`
produced data at all; `interval` is assumed parseable (a malformed
interval raises before any state is touched, which only strengthens the
unchanged-state conclusions proved below). -/
structure SeqRequest where
  hasJson : Bool
  save_path : Option String
  count : CountField
  file_format : String
  interval : ℚ

/-- Filesystem facts consulted by the route's path validation. -/
structure Fs where
  expand : String → String
  pathExists : String → Bool
  isDir : String → Bool
  writable : String → Bool

/-- Error classes of the sequence-start route, in source order. -/
inductive SeqErr
  | noJson
  | alreadyActive
  | missingParams
  | emptyPath
  | invalidCount
  | negInterval
  | pathMissing
  | notDir
  | noWrite
  | countRange
  | badFormat
  | notConnected
  deriving DecidableEq, Repr

/-- Response of the sequence-start route. -/
inductive SeqResp
  | ok (count : Nat)
  | err (code : Nat) (e : SeqErr)
  deriving DecidableEq, Repr

/-- Whether a sequence-start response is an error. -/
def SeqResp.isErr : SeqResp → Bool
  | SeqResp.ok _ => false
  | SeqResp.err _ _ => true

def fmtJPEG : String := "JPEG"

def fmtPNG : String := "PNG"

def fmtTIFF : String := "TIFF"

/-- The `/camera/sequence/start` route (lines 1021-1113): the validation
chain in source order (JSON present, no active sequence, required keys,
non-blank path, parseable count, non-negative interval, path exists / is
a directory / is writable, count in `[1, 10000]`, known file format,
camera connected), then — only after every check passes — the sequence
state is initialised and the worker thread launched. -/
def start_sequence (fs : Fs) (req : SeqRequest) (cam : Cam) (st : CamState)
    (seq : SeqSt) : SeqResp × SeqSt :=
  if req.hasJson = false then (SeqResp.err 400 SeqErr.noJson, seq)
  else if seq.active then (SeqResp.err 400 SeqErr.alreadyActive, seq)
  else
    match req.save_path, req.count with
    | none, _ => (SeqResp.err 400 SeqErr.missingParams, seq)
    | some _, CountField.missing => (SeqResp.err 400 SeqErr.missingParams, seq)
    | some sp, CountField.invalid =>
        if sp.trim = "" then (SeqResp.err 400 SeqErr.emptyPath, seq)
        else (SeqResp.err 400 SeqErr.invalidCount, seq)
    | some sp, CountField.valid n =>
        if sp.trim = "" then (SeqResp.err 400 SeqErr.emptyPath, seq)
        else if req.interval < 0 then (SeqResp.err 400 SeqErr.negInterval, seq)
        else
          let sp1 := fs.expand sp
          if fs.pathExists sp1 = false then (SeqResp.err 400 SeqErr.pathMissing, seq)
          else if fs.isDir sp1 = false then (SeqResp.err 400 SeqErr.notDir, seq)
          else if fs.writable sp1 = false then (SeqResp.err 400 SeqErr.noWrite, seq)
          else if n < 1 ∨ 10000 < n then (SeqResp.err 400 SeqErr.countRange, seq)
          else if req.file_format ≠ fmtJPEG ∧ req.file_format ≠ fmtPNG ∧
                  req.file_format ≠ fmtTIFF then
            (SeqResp.err 400 SeqErr.badFormat, seq)
          else if st.connected = false ∨ cam.is_open = false then
            (SeqResp.err 500 SeqErr.notConnected, seq)
          else
            (SeqResp.ok n.toNat,
             { active := true, save_path := sp1, total_count := n.toNat,
               current_count := 0, file_format := req.file_format,
               interval := req.interval, hasThread := true })

/-! ### Concrete instances used by the witnesses and counterexamples -/

def pathA : String := "captures"

/-- An open, idle camera object. -/
def camIdleOpen : Cam := { is_open := true, streaming := false, hasThread := false }

/-- An open camera object with the stream running. -/
def camStreaming : Cam := { is_open := true, streaming := true, hasThread := true }

/-- A connected idle camera state with the default RGB24 photo format. -/
def stRGB : CamState :=
  { connected := true, streaming := false, width := 4, height := 3,
    exposure := 0, video_exposure := 100000, gain := 50,
    image_format := ASI_IMG_RGB24, error := none }

/-- `stRGB` while the stream is running. -/
def stRGBStreaming : CamState := { stRGB with streaming := true }

/-- `stRGB` with the RAW16 photo format selected. -/
def stRAW16 : CamState := { stRGB with image_format := ASI_IMG_RAW16 }

/-- A driver environment in which every call succeeds and the first
exposure-status poll already reports success. -/
def devOK : Driver :=
  { snapStartExposure := fun _ => 0, snapExpStatus := fun _ => 2,
    snapGetData := 0, startVideo := 0, routeSetROI := 0,
    routeExpStatus := fun _ => 0 }

/-- Like `devOK`, but `ASIStartVideoCapture` fails (used for the
resume-failure analysis of the snapshot route). -/
def devC2 : Driver := { devOK with startVideo := 1 }

/-- Like `devOK`, but the device is mid-exposure at entry: the first
status poll reports `ASI_EXP_WORKING`, later ones succeed. -/
def devC3 : Driver :=
  { devOK with snapExpStatus := fun n => if n = 0 then 1 else 2 }

/-- Like `devOK`, but the route-level status stream is stuck non-idle. -/
def devW3 : Driver := { devOK with routeExpStatus := fun _ => 1 }

/-- Like `devOK`, but every exposure-status poll reports
`ASI_EXP_FAILED`. -/
def devC4 : Driver := { devOK with snapExpStatus := fun _ => 3 }

/-- Like `devOK`, but the first `ASIStartExposure` is rejected with
error 14 (video mode active) and the retry is rejected with error 5. -/
def devW5 : Driver :=
  { devOK with snapStartExposure := fun n => if n = 0 then 14 else 5 }

/-- A filesystem environment in which every path is a writable
directory. -/
def fsAllOk : Fs :=
  { expand := fun s => s, pathExists := fun _ => true,
    isDir := fun _ => true, writable := fun _ => true }

/-- A sequence-start request whose `count` is 0 (below the hard lower
limit) and whose other fields are valid. -/
def reqCount0 : SeqRequest :=
  { hasJson := true, save_path := some pathA, count := CountField.valid 0,
    file_format := fmtJPEG, interval := 0 }

/-- The idle sequence state. -/
def seqIdle : SeqSt :=
  { active := false, save_path := pathA, total_count := 0, current_count := 0,
    file_format := fmtJPEG, interval := 0, hasThread := false }

/-- A freshly started sequence job of five frames in fast mode. -/
def seqFive : SeqSt :=
  { active := true, save_path := pathA, total_count := 5, current_count := 0,
    file_format := fmtJPEG, interval := 0, hasThread := true }

/-! ## Helper lemmas -/

theorem seq_total_eq (evs : List (Bool × Bool)) :
    ∀ s : SeqSt, (sequence_capture_loop evs s).total_count = s.total_count := by
  induction evs with
  | nil => intro s; rfl
  | cons e rest ih =>
      intro s
      obtain ⟨cancel, ok⟩ := e
      by_cases hc : cancel
      · simp [sequence_capture_loop, hc]
      · by_cases ha : s.active = false
        · simp [sequence_capture_loop, hc, ha]
        · by_cases ht : s.total_count ≤ s.current_count
          · simp [sequence_capture_loop, hc, ha, ht]
          · by_cases ho : ok
            · simp [sequence_capture_loop, hc, ha, ht, ho, ih]
            · simp [sequence_capture_loop, hc, ha, ht, ho, ih]

theorem seq_le (evs : List (Bool × Bool)) :
    ∀ s : SeqSt, s.current_count ≤ s.total_count →
      (sequence_capture_loop evs s).current_count ≤
        (sequence_capture_loop evs s).total_count := by
  induction evs with
  | nil => intro s h; exact h
  | cons e rest ih =>
      intro s h
      obtain ⟨cancel, ok⟩ := e
      by_cases hc : cancel
      · simpa [sequence_capture_loop, hc] using h
      · by_cases ha : s.active = false
        · simpa [sequence_capture_loop, hc, ha] using h
        · by_cases ht : s.total_count ≤ s.current_count
          · simpa [sequence_capture_loop, hc, ha, ht] using h
          · by_cases ho : ok
            · simp only [sequence_capture_loop, if_neg hc, if_neg ha, if_neg ht,
                if_pos ho]
              exact ih _ (by simp; omega)
            · simp only [sequence_capture_loop, if_neg hc, if_neg ha, if_neg ht,
                if_neg ho]
              exact ih _ h

theorem seq_count_le (evs : List (Bool × Bool)) :
    ∀ s : SeqSt, (sequence_capture_loop evs s).current_count ≤
      s.current_count + evs.countP (fun e => e.2) := by
  induction evs with
  | nil => intro s; simp [sequence_capture_loop]
  | cons e rest ih =>
      intro s
      obtain ⟨cancel, ok⟩ := e
      by_cases hc : cancel
      · simp [sequence_capture_loop, hc]
      · by_cases ha : s.active = false
        · simp [sequence_capture_loop, hc, ha, List.countP_cons]
        · by_cases ht : s.total_count ≤ s.current_count
          · simp [sequence_capture_loop, hc, ha, ht, List.countP_cons]
          · by_cases ho : ok
            · simp only [sequence_capture_loop, if_neg hc, if_neg ha, if_neg ht,
                if_pos ho]
              have := ih { s with current_count := s.current_count + 1 }
              simp only [List.countP_cons, ho]
              simp at this ⊢
              omega
            · simp only [sequence_capture_loop, if_neg hc, if_neg ha, if_neg ht,
                if_neg ho]
              have := ih s
              simp only [List.countP_cons, ho]
              simp at this ⊢
              omega

theorem seq_exit (evs : List (Bool × Bool)) :
    ∀ s : SeqSt, s.active = true → (sequence_capture_loop evs s).active = false →
      (sequence_capture_loop evs s).total_count ≤
          (sequence_capture_loop evs s).current_count ∨
        evs.any (fun e => e.1) = true := by
  induction evs with
  | nil =>
      intro s ha hf
      simp [sequence_capture_loop] at hf
      rw [hf] at ha
      exact absurd ha (by decide)
  | cons e rest ih =>
      intro s ha hf
      obtain ⟨cancel, ok⟩ := e
      by_cases hc : cancel
      · right; simp [hc]
      · by_cases hacts : s.active = false
        · exact absurd ha (by simp [hacts])
        · by_cases ht : s.total_count ≤ s.current_count
          · left
            simp only [sequence_capture_loop, if_neg hc, if_neg hacts, if_pos ht]
            simpa using ht
          · by_cases ho : ok
            · simp only [sequence_capture_loop, if_neg hc, if_neg hacts,
                if_neg ht, if_pos ho] at hf ⊢
              rcases ih _ (by simpa using ha) hf with h | h
              · exact Or.inl h
              · right; simp [h]
            · simp only [sequence_capture_loop, if_neg hc, if_neg hacts,
                if_neg ht, if_neg ho] at hf ⊢
              rcases ih _ ha hf with h | h
              · exact Or.inl h
              · right; simp [h]

theorem pollExposure_mem (statusAt : Nat → Nat) :
    ∀ fuel i last c, c ∈ (pollExposure statusAt i fuel last).2 →
      c = DCall.getExpStatus := by
  intro fuel
  induction fuel with
  | zero => intro i last c hc; simp [pollExposure] at hc
  | succ n ih =>
      intro i last c hc
      by_cases h2 : statusAt i = 2
      · simp [pollExposure, h2] at hc
        exact hc
      · by_cases h3 : statusAt i = 3
        · simp [pollExposure, h2, h3] at hc
          exact hc
        · simp [pollExposure, h2, h3] at hc
          rcases hc with hc | hc
          · exact hc
          · exact ih _ _ c hc

theorem pollExposure_count_zero (statusAt : Nat → Nat) (fuel i last : Nat) :
    (pollExposure statusAt i fuel last).2.count DCall.startExposure = 0 ∧
    (pollExposure statusAt i fuel last).2.count DCall.stopVideoCapture = 0 := by
  constructor <;>
    · rw [List.count_eq_zero]
      intro hmem
      have h := pollExposure_mem statusAt fuel i last _ hmem
      exact DCall.noConfusion h

theorem snap_after_start_count (dev : Driver) (st : CamState) :
    (snap_after_start dev st).2.count DCall.startExposure = 0 ∧
    (snap_after_start dev st).2.count DCall.stopVideoCapture = 0 := by
  obtain ⟨hs, hv⟩ :=
    pollExposure_count_zero dev.snapExpStatus ((st.exposure / 1000 + 5000 + 99) / 100) 0 0
  unfold snap_after_start
  dsimp only
  split
  · split_ifs
    · constructor <;> simp [List.count_append, hs, hv, List.count_singleton]
    · constructor <;> simp [List.count_append, List.count_cons, hs, hv]
    · exact ⟨hs, hv⟩
  · exact ⟨hs, hv⟩

theorem capture_snapshot_state (dev : Driver) (cam : Cam) (st : CamState)
    (h : cam.streaming = false) :
    (capture_snapshot dev cam st).2.1 = cam ∧
    (capture_snapshot dev cam st).2.2.1 = st := by
  unfold capture_snapshot
  by_cases ho : cam.is_open = false
  · simp [ho]
  · by_cases hse : (snap_start_exposure dev).1 = false
    · simp [ho, h, hse]
    · simp [ho, h, hse]

theorem route_pre_rgb (dev : Driver) (cam : Cam) (st : CamState)
    (hopen : cam.is_open = true) (hstr : cam.streaming = true)
    (hfmt : st.image_format = ASI_IMG_RGB24) :
    route_pre dev cam st =
      PreRes.go { cam with streaming := false } { st with streaming := false }
        [DCall.stopVideoCapture] false := by
  simp [route_pre, stop_stream, hopen, hstr, hfmt]

theorem route_pre_fmtok (dev : Driver) (cam : Cam) (st : CamState)
    (hopen : cam.is_open = true) (hstr : cam.streaming = true)
    (hfmt : st.image_format ≠ ASI_IMG_RGB24) (hroi : dev.routeSetROI = ASI_SUCCESS) :
    route_pre dev cam st =
      PreRes.go { cam with streaming := false } { st with streaming := false }
        (DCall.stopVideoCapture :: DCall.setROIFormat st.image_format ::
          route_format_block dev) true := by
  simp [route_pre, stop_stream, hopen, hstr, hfmt, hroi]

theorem route_pre_fmtok_idle (dev : Driver) (cam : Cam) (st : CamState)
    (hstr : cam.streaming = false) (hfmt : st.image_format ≠ ASI_IMG_RGB24)
    (hroi : dev.routeSetROI = ASI_SUCCESS) :
    route_pre dev cam st =
      PreRes.go cam st
        (DCall.setROIFormat st.image_format :: route_format_block dev) true := by
  simp [route_pre, hstr, hfmt, hroi]

theorem idle_poll_stuck (statusAt : Nat → Nat) (hs : ∀ k, statusAt k ≠ 0) :
    ∀ fuel s i, s ≠ 0 →
      (idle_poll statusAt s i fuel).1 ≠ 0 ∧
      (idle_poll statusAt s i fuel).2 = List.replicate fuel DCall.getExpStatus := by
  intro fuel
  induction fuel with
  | zero => intro s i hsne; exact ⟨hsne, rfl⟩
  | succ n ih =>
      intro s i hsne
      obtain ⟨h1, h2⟩ := ih (statusAt i) (i + 1) (hs i)
      simp only [idle_poll, if_neg hsne]
      exact ⟨h1, by rw [h2]; rfl⟩

theorem route_format_block_stuck (dev : Driver)
    (hs : ∀ k, dev.routeExpStatus k ≠ 0) :
    route_format_block dev =
      DCall.getExpStatus ::
        (List.replicate 30 DCall.getExpStatus ++ [DCall.stopExposure]) := by
  obtain ⟨h1, h2⟩ :=
    idle_poll_stuck (fun k => dev.routeExpStatus (k + 1)) (fun k => hs (k + 1)) 30
      (dev.routeExpStatus 0) 0 (hs 0)
  simp [route_format_block, hs 0, h1, h2]

/-! ## Claim theorems -/

/-- C6 (confirmed): on every iteration of the streaming capture loop the
frame-pull timeout in milliseconds equals
`max(100, min(2 * (video_exposure / 1000) + 500, 5000))` (with exact
rational division under the truncation), so it is bounded below by 100 ms
and above by 5000 ms for every video-exposure value. -/
theorem stream_timeout_clamped (ve : Nat) :
    stream_timeout_ms ve = max 100 (min (2 * ve / 1000 + 500) 5000) ∧
    100 ≤ stream_timeout_ms ve ∧ stream_timeout_ms ve ≤ 5000 := by
  have h1 : ((ve : ℚ) / 1000 * 2 + 500) =
      ((2 * ve : ℕ) : ℚ) / ((1000 : ℕ) : ℚ) + ((500 : ℕ) : ℚ) := by
    push_cast
    ring
  have hfloor : Nat.floor ((ve : ℚ) / 1000 * 2 + 500) = 2 * ve / 1000 + 500 := by
    rw [h1, Nat.floor_add_nat (by positivity), Nat.floor_div_nat, Nat.floor_natCast]
  refine ⟨by simp only [stream_timeout_ms, hfloor], Nat.le_max_left _ _, ?_⟩
  exact Nat.max_le.mpr ⟨by norm_num, Nat.min_le_right _ _⟩

/-- C7 counterexample: under 9 consecutive pull timeouts the loop stays
alive but, contrary to the claim, no error report is emitted at any
iteration (timeouts are not counted at all), and the error counter stays
0 rather than reaching values that would trigger reports at iterations 1
and 10. -/
theorem capture_loop_timeouts_unreported_cex :
    capture_loop_run 1 0 (List.replicate 9 2) = (0, []) := by decide

/-- C7 (corrected): a timeout pull (result 2) is retried without being
counted or reported; any other non-success result increments the
consecutive-error counter with a report exactly when the counter is 1 or
a multiple of 10; the counter resets to 0 on a successful pull; in
particular 9 consecutive timeouts followed by a success produce no
reports, while consecutive genuine errors produce reports at occurrences
1 and 10 and the next success resets the counter. -/
theorem capture_loop_error_reporting :
    (∀ c, capture_loop_step c 2 =
      { consecutive_errors := c, reported := false, published := false }) ∧
    (∀ c, capture_loop_step c 0 =
      { consecutive_errors := 0, reported := false, published := true }) ∧
    (∀ c r, r ≠ 0 → r ≠ 2 →
      capture_loop_step c r =
        { consecutive_errors := c + 1,
          reported := decide (c + 1 = 1 ∨ (c + 1) % 10 = 0), published := false }) ∧
    capture_loop_run 1 0 (List.replicate 9 2 ++ [0]) = (0, []) ∧
    capture_loop_run 1 0 (List.replicate 19 9 ++ [0]) = (0, [1, 10]) := by
  refine ⟨fun c => by norm_num [capture_loop_step, ASI_SUCCESS],
    fun c => by norm_num [capture_loop_step, ASI_SUCCESS],
    fun c r h0 h2 => by simp [capture_loop_step, ASI_SUCCESS, h0, h2],
    by decide, by decide⟩

/-- C7 witness: the error case of `capture_loop_error_reporting` applied
at counter 0 and pull result 9. -/
theorem capture_loop_error_reporting_witness :
    (9 : Int) ≠ 0 ∧ (9 : Int) ≠ 2 ∧
    capture_loop_step 0 9 =
      { consecutive_errors := 1, reported := true, published := false } := by
  refine ⟨by decide, by decide, ?_⟩
  have h := capture_loop_error_reporting.2.2.1 0 9 (by decide) (by decide)
  simpa using h

/-- C4 (code bug): when the device reports `ASI_EXP_FAILED` (status 3)
during the exposure wait, `capture_snapshot` does not return `None`: the
log line at source line 523 reads the local `status_names` before its
only assignment (line 572), so the call raises `UnboundLocalError`
instead of returning a failure value.  The same read happens on the
timeout path (line 530). -/
theorem capture_snapshot_failed_status_raises :
    devC4.snapExpStatus 0 = 3 ∧
    capture_snapshot devC4 camIdleOpen stRGB =
      (SnapRet.exc PyErr.unboundLocalStatusNames, camIdleOpen, stRGB,
       [DCall.setControl ASI_EXPOSURE 0, DCall.setControl ASI_GAIN 50,
        DCall.startExposure, DCall.getExpStatus]) := by decide

/-- C3 counterexample: invoked while the device is mid-exposure (the
status stream reports `ASI_EXP_WORKING` at entry), `capture_snapshot`
performs no status poll before `ASIStartExposure` and never issues
`ASIStopExposure`, contradicting the claimed poll-for-idle and forced
stop-exposure recovery at entry. -/
theorem capture_snapshot_no_idle_poll_cex :
    devC3.snapExpStatus 0 = 1 ∧
    DCall.startExposure ∈ (capture_snapshot devC3 camIdleOpen stRGB).2.2.2 ∧
    DCall.stopExposure ∉ (capture_snapshot devC3 camIdleOpen stRGB).2.2.2 ∧
    ((capture_snapshot devC3 camIdleOpen stRGB).2.2.2.takeWhile
        (fun c => c != DCall.startExposure)).count DCall.getExpStatus = 0 := by
  decide

/-- C2 counterexample: with streaming active and a capture that succeeds,
a failing resume (`ASIStartVideoCapture` returns 1 at line 847, its
result discarded) leaves the device idle and records the failure in
`camera_state['error']`, but the snapshot response is still the image
(HTTP 200) — the resume failure is not reported in the response. -/
theorem snapshot_resume_failure_silent_cex :
    camStreaming.streaming = true ∧ devC2.startVideo ≠ ASI_SUCCESS ∧
    (snapshot_route devC2 camStreaming stRGBStreaming).1 =
      Resp.imageOk { fmt := ASI_IMG_RGB24, width := 4, height := 3 } ∧
    (snapshot_route devC2 camStreaming stRGBStreaming).2.2.1.streaming = false ∧
    (snapshot_route devC2 camStreaming stRGBStreaming).2.2.1.error =
      some (CamErr.startVideoFailed 1) := by decide

/-- C8 (confirmed): throughout every run of the sequence orchestrator
`completed <= total` is preserved, `completed` grows by at most the
number of successful captures, the loop ends (clears `active`) only when
the completion bound is reached or a cancellation was observed, and the
uncancelled count-5 fast-mode scenario ends with `active = false` and
`completed = 5`. -/
theorem sequence_loop_invariant :
    (∀ (evs : List (Bool × Bool)) (s : SeqSt), s.current_count ≤ s.total_count →
      (sequence_capture_loop evs s).current_count ≤
        (sequence_capture_loop evs s).total_count) ∧
    (∀ (evs : List (Bool × Bool)) (s : SeqSt),
      (sequence_capture_loop evs s).current_count ≤
        s.current_count + evs.countP (fun e => e.2)) ∧
    (∀ (evs : List (Bool × Bool)) (s : SeqSt), s.active = true →
      (sequence_capture_loop evs s).active = false →
      (sequence_capture_loop evs s).total_count ≤
          (sequence_capture_loop evs s).current_count ∨
        evs.any (fun e => e.1) = true) ∧
    sequence_capture_loop (List.replicate 6 (false, true)) seqFive =
      { active := false, save_path := pathA, total_count := 5, current_count := 5,
        file_format := fmtJPEG, interval := 0, hasThread := true } := by
  exact ⟨fun evs => seq_le evs, fun evs => seq_count_le evs,
    fun evs => seq_exit evs, by decide⟩

/-- C8 witness: `sequence_loop_invariant` applied at concrete runs,
discharging the `completed <= total`, `active` and termination
hypotheses. -/
theorem sequence_loop_invariant_witness :
    ((sequence_capture_loop [(false, true)] seqFive).current_count ≤
      (sequence_capture_loop [(false, true)] seqFive).total_count) ∧
    ((sequence_capture_loop [(true, true)] seqFive).total_count ≤
        (sequence_capture_loop [(true, true)] seqFive).current_count ∨
      ([(true, true)] : List (Bool × Bool)).any (fun e => e.1) = true) := by
  exact ⟨sequence_loop_invariant.1 [(false, true)] seqFive (by decide),
    sequence_loop_invariant.2.2.1 [(true, true)] seqFive (by decide) (by decide)⟩

/-- C9 (confirmed): calling the stop-streaming route when not streaming
is an idempotent no-op success: the response is success, the camera
object and camera state are returned unchanged (the streaming flag stays
false and the worker field is untouched), and only the unconditional
device-level `ASIStopVideoCapture` is issued. -/
theorem stop_stream_idempotent (cam : Cam) (st : CamState)
    (h1 : cam.streaming = false) (h2 : st.streaming = false) :
    stop_stream_route cam st =
      (true, cam, st, if cam.is_open then [DCall.stopVideoCapture] else []) := by
  obtain ⟨o, s, t⟩ := cam
  obtain ⟨cn, ss, w, hh, ex, vx, g, fm, er⟩ := st
  dsimp only at h1 h2
  subst h1
  subst h2
  rfl

/-- C9 witness: `stop_stream_idempotent` at the open idle camera. -/
theorem stop_stream_idempotent_witness :
    camIdleOpen.streaming = false ∧
    stop_stream_route camIdleOpen stRGB =
      (true, camIdleOpen, stRGB, [DCall.stopVideoCapture]) := by
  exact ⟨rfl, stop_stream_idempotent camIdleOpen stRGB rfl rfl⟩

/-- C10 (confirmed): every sequence-start request whose count is below 1
or above 10000 is answered with an error response, and the sequence job
state (including the worker flag) is completely unchanged. -/
theorem start_sequence_count_guard (fs : Fs) (req : SeqRequest) (cam : Cam)
    (st : CamState) (seq : SeqSt) (n : Int) (hc : req.count = CountField.valid n)
    (hn : n < 1 ∨ 10000 < n) :
    (start_sequence fs req cam st seq).2 = seq ∧
    ((start_sequence fs req cam st seq).1).isErr = true := by
  obtain ⟨hj, sp, cf, ff, iv⟩ := req
  dsimp only at hc
  subst hc
  rcases sp with _ | sp
  · simp only [start_sequence]
    split_ifs <;> exact ⟨rfl, rfl⟩
  · simp only [start_sequence]
    split_ifs <;> exact ⟨rfl, rfl⟩

/-- C10 witness: `start_sequence_count_guard` at a request with count 0
and an otherwise valid environment. -/
theorem start_sequence_count_guard_witness :
    reqCount0.count = CountField.valid 0 ∧
    (start_sequence fsAllOk reqCount0 camIdleOpen stRGB seqIdle).2 = seqIdle ∧
    ((start_sequence fsAllOk reqCount0 camIdleOpen stRGB seqIdle).1).isErr = true := by
  exact ⟨rfl,
    start_sequence_count_guard fsAllOk reqCount0 camIdleOpen stRGB seqIdle 0 rfl
      (by decide)⟩

/-- C5 (confirmed): when `ASIStartExposure` is rejected with error 14
(video mode still active), `capture_snapshot` issues exactly one
stop-video-capture between the first start and exactly one retry (the
decomposition pins both starts: the surrounding segments contain no
start-exposure and the trailing segment no stop-video-capture); if the
retry also fails it returns `None`; any other rejection returns `None`
after a single start-exposure with no retry. -/
theorem capture_snapshot_video_active_retry (dev : Driver) (cam : Cam)
    (st : CamState) (hopen : cam.is_open = true) :
    (dev.snapStartExposure 0 = 14 →
      (∃ pre post,
        (capture_snapshot dev cam st).2.2.2 =
          pre ++ [DCall.startExposure, DCall.stopVideoCapture,
            DCall.startExposure] ++ post ∧
        pre.count DCall.startExposure = 0 ∧
        pre.count DCall.stopVideoCapture = (if cam.streaming then 1 else 0) ∧
        post.count DCall.startExposure = 0 ∧
        post.count DCall.stopVideoCapture = 0) ∧
      (dev.snapStartExposure 1 ≠ ASI_SUCCESS →
        (capture_snapshot dev cam st).1 = SnapRet.ok none)) ∧
    (dev.snapStartExposure 0 ≠ ASI_SUCCESS → dev.snapStartExposure 0 ≠ 14 →
      (capture_snapshot dev cam st).1 = SnapRet.ok none ∧
      ∃ pre, (capture_snapshot dev cam st).2.2.2 = pre ++ [DCall.startExposure] ∧
        pre.count DCall.startExposure = 0) := by
  constructor
  · intro h14
    have hse2 : (snap_start_exposure dev).2 =
        [DCall.startExposure, DCall.stopVideoCapture, DCall.startExposure] := by
      simp [snap_start_exposure, h14, ASI_SUCCESS]
    have hse1 : (snap_start_exposure dev).1 =
        decide (dev.snapStartExposure 1 = ASI_SUCCESS) := by
      simp [snap_start_exposure, h14, ASI_SUCCESS]
    by_cases hstr : cam.streaming = true
    · constructor
      · by_cases hr2 : dev.snapStartExposure 1 = ASI_SUCCESS
        · refine ⟨[DCall.stopVideoCapture, DCall.setControl ASI_EXPOSURE st.exposure,
              DCall.setControl ASI_GAIN st.gain],
            (snap_after_start dev { st with streaming := false }).2, ?_, rfl, ?_, ?_, ?_⟩
          · simp [capture_snapshot, hopen, hstr, stop_stream, hse1, hse2, hr2]
          · simp [hstr]
          · exact (snap_after_start_count dev _).1
          · exact (snap_after_start_count dev _).2
        · refine ⟨[DCall.stopVideoCapture, DCall.setControl ASI_EXPOSURE st.exposure,
              DCall.setControl ASI_GAIN st.gain], [], ?_, rfl, ?_, rfl, rfl⟩
          · simp [capture_snapshot, hopen, hstr, stop_stream, hse1, hse2, hr2]
          · simp [hstr]
      · intro hr2
        simp [capture_snapshot, hopen, hstr, stop_stream, hse1, hr2]
    · constructor
      · by_cases hr2 : dev.snapStartExposure 1 = ASI_SUCCESS
        · refine ⟨[DCall.setControl ASI_EXPOSURE st.exposure,
              DCall.setControl ASI_GAIN st.gain],
            (snap_after_start dev st).2, ?_, rfl, ?_, ?_, ?_⟩
          · simp [capture_snapshot, hopen, hstr, hse1, hse2, hr2]
          · simp [hstr]
          · exact (snap_after_start_count dev _).1
          · exact (snap_after_start_count dev _).2
        · refine ⟨[DCall.setControl ASI_EXPOSURE st.exposure,
              DCall.setControl ASI_GAIN st.gain], [], ?_, rfl, ?_, rfl, rfl⟩
          · simp [capture_snapshot, hopen, hstr, hse1, hse2, hr2]
          · simp [hstr]
      · intro hr2
        simp [capture_snapshot, hopen, hstr, hse1, hr2]
  · intro h0 h14
    have h0' : dev.snapStartExposure 0 ≠ 0 := by simpa [ASI_SUCCESS] using h0
    have hse2 : (snap_start_exposure dev).2 = [DCall.startExposure] := by
      simp [snap_start_exposure, h0', h14, ASI_SUCCESS]
    have hse1 : (snap_start_exposure dev).1 = false := by
      simp [snap_start_exposure, h0', h14, ASI_SUCCESS]
    by_cases hstr : cam.streaming = true
    · refine ⟨by simp [capture_snapshot, hopen, hstr, stop_stream, hse1],
        [DCall.stopVideoCapture, DCall.setControl ASI_EXPOSURE st.exposure,
          DCall.setControl ASI_GAIN st.gain], ?_, rfl⟩
      simp [capture_snapshot, hopen, hstr, stop_stream, hse1, hse2]
    · refine ⟨by simp [capture_snapshot, hopen, hstr, hse1],
        [DCall.setControl ASI_EXPOSURE st.exposure,
          DCall.setControl ASI_GAIN st.gain], ?_, rfl⟩
      simp [capture_snapshot, hopen, hstr, hse1, hse2]

/-- C5 witness: `capture_snapshot_video_active_retry` at a driver whose
first start-exposure is rejected with error 14 and whose retry is
rejected with error 5: the capture returns `None`. -/
theorem capture_snapshot_video_active_retry_witness :
    devW5.snapStartExposure 0 = 14 ∧
    (capture_snapshot devW5 camIdleOpen stRGB).1 = SnapRet.ok none := by
  refine ⟨by decide, ?_⟩
  exact ((capture_snapshot_video_active_retry devW5 camIdleOpen stRGB rfl).1
    (by decide)).2 (by decide)

/-- C2 (corrected): for a snapshot request while streaming, the stream is
suspended first (the call trace starts with the stop-video call), the
exposure is taken, and a resume is attempted; when the resume's
start-video call fails, the device is left idle (both streaming flags
false) and the failure is recorded in the camera error state, but the
snapshot response still reports the captured image — the resume failure
is not part of the response. -/
theorem snapshot_resume_failure_recorded (dev : Driver) (cam : Cam)
    (st : CamState) (f : Frame)
    (hconn : st.connected = true) (hopen : cam.is_open = true)
    (hstr : cam.streaming = true)
    (hfmt : st.image_format = ASI_IMG_RGB24 ∨ dev.routeSetROI = ASI_SUCCESS)
    (hres : dev.startVideo ≠ ASI_SUCCESS)
    (hcap : (capture_snapshot dev { cam with streaming := false }
        { st with streaming := false }).1 = SnapRet.ok (some f)) :
    (snapshot_route dev cam st).1 = Resp.imageOk f ∧
    (snapshot_route dev cam st).2.1.streaming = false ∧
    (snapshot_route dev cam st).2.2.1.streaming = false ∧
    (snapshot_route dev cam st).2.2.1.error =
      some (CamErr.startVideoFailed dev.startVideo) ∧
    ∃ tr, (snapshot_route dev cam st).2.2.2 = DCall.stopVideoCapture :: tr := by
  obtain ⟨o, sfl, th⟩ := cam
  obtain ⟨cn, ss, w, hh, ex, vx, g, fm, er⟩ := st
  dsimp only at hconn hopen hstr hcap ⊢
  subst hconn
  subst hopen
  subst hstr
  obtain ⟨hc1, hc2⟩ := capture_snapshot_state dev
    (Cam.mk true false th) (CamState.mk true false w hh ex vx g fm er) rfl
  by_cases hf : fm = ASI_IMG_RGB24
  · have hpre := route_pre_rgb dev (Cam.mk true true th)
      (CamState.mk true ss w hh ex vx g fm er) rfl rfl hf
    refine ⟨?_, ?_, ?_, ?_, ?_⟩ <;>
      simp [snapshot_route, hpre, hcap, hc1, hc2, start_stream, hres]
  · have hroi : dev.routeSetROI = ASI_SUCCESS := hfmt.resolve_left hf
    have hpre := route_pre_fmtok dev (Cam.mk true true th)
      (CamState.mk true ss w hh ex vx g fm er) rfl rfl hf hroi
    refine ⟨?_, ?_, ?_, ?_, ?_⟩ <;>
      simp [snapshot_route, hpre, hcap, hc1, hc2, start_stream, hres]

/-- C2 witness: `snapshot_resume_failure_recorded` at the concrete
streaming state with a failing resume: the error is recorded in the
camera state while the response is the image. -/
theorem snapshot_resume_failure_recorded_witness :
    (snapshot_route devC2 camStreaming stRGBStreaming).2.2.1.error =
      some (CamErr.startVideoFailed devC2.startVideo) ∧
    (snapshot_route devC2 camStreaming stRGBStreaming).1 =
      Resp.imageOk { fmt := ASI_IMG_RGB24, width := 4, height := 3 } := by
  have h := snapshot_resume_failure_recorded devC2 camStreaming stRGBStreaming
    { fmt := ASI_IMG_RGB24, width := 4, height := 3 } rfl rfl rfl (Or.inl rfl)
    (by decide) (by decide)
  exact ⟨h.2.2.2.1, h.1⟩

/-- C3 (corrected): the poll-for-idle with forced stop-exposure recovery
is not in `capture_snapshot`; it is performed by the snapshot route, and
only after applying a non-RGB24 photo format.  When the device stays
non-idle throughout, the route polls the status 31 times (the initial
read plus a 3000 ms / 30-iteration wait) and issues `ASIStopExposure`,
all before `capture_snapshot` makes any call — in particular before any
start-exposure. -/
theorem route_idle_recovery_after_format (dev : Driver) (cam : Cam)
    (st : CamState) (hconn : st.connected = true) (hopen : cam.is_open = true)
    (hidle : cam.streaming = false) (hfmt : st.image_format ≠ ASI_IMG_RGB24)
    (hroi : dev.routeSetROI = ASI_SUCCESS)
    (hs : ∀ k, dev.routeExpStatus k ≠ 0) :
    (∃ rest, (snapshot_route dev cam st).2.2.2 =
        DCall.setROIFormat st.image_format :: (route_format_block dev ++ rest)) ∧
    DCall.stopExposure ∈ route_format_block dev ∧
    (route_format_block dev).count DCall.getExpStatus = 31 ∧
    DCall.startExposure ∉ route_format_block dev := by
  have hblock := route_format_block_stuck dev hs
  have hpre := route_pre_fmtok_idle dev cam st hidle hfmt hroi
  refine ⟨⟨(capture_snapshot dev cam st).2.2.2, ?_⟩, by rw [hblock]; decide,
    by rw [hblock]; decide, by rw [hblock]; decide⟩
  rcases hr : (capture_snapshot dev cam st).1 with img | e
  · rcases img with _ | f <;> simp [snapshot_route, hconn, hopen, hpre, hr, hidle]
  · simp [snapshot_route, hconn, hopen, hpre, hr, hidle]

/-- C3 witness: `route_idle_recovery_after_format` at a stuck driver and
the RAW16 photo format. -/
theorem route_idle_recovery_after_format_witness :
    stRAW16.image_format ≠ ASI_IMG_RGB24 ∧
    DCall.stopExposure ∈ route_format_block devW3 ∧
    (route_format_block devW3).count DCall.getExpStatus = 31 ∧
    DCall.startExposure ∉ route_format_block devW3 := by
  have h := route_idle_recovery_after_format devW3 camIdleOpen stRAW16 rfl rfl rfl
    (by decide) rfl (fun k => by simp [devW3, devOK])
  exact ⟨by decide, h.2.1, h.2.2.1, h.2.2.2⟩
